import Mathlib

/-!
Verification of the OpsGuard remediation orchestrator.

This file shallowly embeds the core of the OpsGuard repository
(`src/core/state.py`, `src/core/graph.py`, `src/core/nodes.py`,
`src/core/patch_engine.py`, `src/core/llm_client.py`,
`src/core/error_classifier.py`) in Lean and proves properties of the
embedded definitions.

Modelling conventions:
* Python strings are Lean `String`s; Python string methods that the kernel
  cannot evaluate are re-implemented on `List Char` with the same semantics
  (`pyReplace`, `pyStrip`, `pyLower`, `pySplitlines`, `pyContains`).
  Inputs are assumed to use `"\n"` line endings (Python `splitlines` also
  splits on `"\r"` and rarer terminators, which do not occur here).
* `ast.parse` of the guest language (Python) is an external facility; it is
  modelled as an explicit parameter `parse : String → Option PyModule`,
  an oracle mapping source text to its parsed module (or `none` for a
  syntax error).  Theorems quantify over this oracle.
* Floating point: the source compares `candidate_len < int(original_len * 0.9)`
  and `preserved < 0.9` using IEEE doubles; the model uses the exact
  rational bound (`9 * n / 10` with `Nat` floor division, resp.
  `10 * preserved_count < 9 * total`), which agrees with the double
  computation on all realistic magnitudes.
* The filesystem is a map `FS := String → Option String` from paths to file
  contents; a directory is represented by an entry at its path.
  `os.path.join a b` is modelled as `a ++ "/" ++ b` (the arguments joined
  in this codebase are a plain directory path and a relative file name).
* External collaborators (Docker sandbox, LLM providers, `py_compile`)
  return values drawn from an adversarial environment `Env`; they do not
  mutate the modelled state.
-/

namespace OpsGuard

/-! ## Python string primitives -/

/-- ASCII lower-casing of one character, as `str.lower` acts on the ASCII
    inputs appearing in this development. -/
def chrLower (c : Char) : Char :=
  if 'A' ≤ c ∧ c ≤ 'Z' then Char.ofNat (c.toNat + 32) else c

/-- Embeds `str.lower`. -/
def pyLower (s : String) : String :=
  String.mk (s.data.map chrLower)

/-- Python whitespace characters stripped by `str.strip()`. -/
def pyIsSpace (c : Char) : Bool :=
  c = ' ' ∨ c = '\t' ∨ c = '\n' ∨ c = '\r' ∨ c = '\x0b' ∨ c = '\x0c'

/-- Embeds `str.strip()` (no argument): remove whitespace from both ends. -/
def pyStrip (s : String) : String :=
  String.mk (((s.data.dropWhile pyIsSpace).reverse.dropWhile pyIsSpace).reverse)

/-- Core of `str.replace`: replace non-overlapping occurrences of `pat`
    left to right.  The fuel argument (instantiated with the length of the
    subject) bounds the recursion; each step consumes at least one
    character, so the result equals Python's `str.replace` for a non-empty
    pattern. -/
def listReplace (pat rep : List Char) : Nat → List Char → List Char
  | 0, s => s
  | _ + 1, [] => []
  | fuel + 1, c :: cs =>
    if pat.isPrefixOf (c :: cs) ∧ pat ≠ [] then
      rep ++ listReplace pat rep fuel ((c :: cs).drop pat.length)
    else
      c :: listReplace pat rep fuel cs

/-- Embeds `str.replace` for a non-empty pattern. -/
def pyReplace (s pat rep : String) : String :=
  String.mk (listReplace pat.data rep.data s.data.length s.data)

/-- Does `sub` occur as a contiguous substring?  (Python `sub in s`.) -/
def listContains (sub : List Char) : List Char → Bool
  | [] => sub.isPrefixOf []
  | c :: cs => sub.isPrefixOf (c :: cs) || listContains sub cs

/-- Python `sub in s` for strings. -/
def pyContains (s sub : String) : Bool :=
  listContains sub.data s.data

/-- Split a character list at every occurrence of `sep`, Python
    `str.split(sep)` semantics for a one-character separator. -/
def listSplitChar (sep : Char) : List Char → List (List Char)
  | [] => [[]]
  | c :: cs =>
    let rest := listSplitChar sep cs
    if c = sep then [] :: rest
    else
      match rest with
      | [] => [[c]]
      | r :: rs => (c :: r) :: rs

/-- Embeds `str.splitlines()` for `"\n"`-terminated text: split on `"\n"`,
    dropping the trailing empty piece produced by a final newline, and
    yielding `[]` for the empty string. -/
def pySplitlines (s : String) : List String :=
  let parts := (listSplitChar '\n' s.data).map String.mk
  match s.data.getLast? with
  | none => []
  | some c => if c = '\n' then parts.dropLast else parts

/-- Embeds `str.startswith`. -/
def pyStartsWith (s pre : String) : Bool :=
  pre.data.isPrefixOf s.data

/-- Embeds `"\n".join(lines)` / general `sep.join`. -/
def pyJoinSep (sep : String) (lines : List String) : String :=
  String.mk ((lines.map String.data).intersperse sep.data).flatten

/-! ## Filesystem model -/

/-- Paths mapped to file contents.  A directory is modelled as an entry at
    its path (only existence of directories is ever queried). -/
def FS : Type := String → Option String

/-- Embeds `os.path.join` for the shapes used in this codebase: a directory path
    joined with a relative name. -/
def pyJoin (a b : String) : String := a ++ "/" ++ b

/-- Writing (creating or overwriting) one file. -/
def fsWrite (fs : FS) (p : String) (v : String) : FS :=
  fun q => if q = p then some v else fs q

/-- Embeds `os.path.exists`. -/
def fsExists (fs : FS) (p : String) : Bool :=
  (fs p).isSome

theorem fsWrite_isSome (fs : FS) (p v q : String) (h : (fs q).isSome) :
    ((fsWrite fs p v) q).isSome := by
  unfold fsWrite
  by_cases hq : q = p <;> simp [hq, h]

/-! ## `difflib` embedding

Faithful embedding of the parts of CPython's `difflib` used by the
repository: `SequenceMatcher` (with `isjunk=None`, so the junk set is
empty; the `autojunk` popularity heuristic is included), `get_opcodes`,
`get_grouped_opcodes` and `unified_diff` (with `lineterm=""`).
Recursions that CPython expresses with worklists/while loops take an
explicit fuel argument instantiated with a provably sufficient bound. -/

/-- A maximal matching block `a[besti:besti+bestsize] == b[bestj:bestj+bestsize]`
    (CPython's `Match` named tuple). -/
structure MatchBlock where
  besti : Nat
  bestj : Nat
  bestsize : Nat
deriving DecidableEq

/-- Embeds `b2j` lookup: the ascending list of indices `j` with `b[j] = x`,
    with `autojunk` popular elements removed (an element is popular when
    `len(b) >= 200` and it occurs more than `len(b) // 100 + 1` times). -/
def b2jGet (b : List String) (x : String) : List Nat :=
  if b.length ≥ 200 ∧ (b.filter (· = x)).length > b.length / 100 + 1 then []
  else (List.range b.length).filter (fun j => b.get? j = some x)

/-- Inner loop of `find_longest_match` over the candidate `j` positions for
    one `i`: builds `newj2len` and updates the current best block.  Mirrors
    the `for j in b2j.get(a[i], nothing)` loop including the early `break`
    at `j >= bhi`. -/
def flmInner (blo bhi i : Nat) (j2lenOld : Nat → Nat) :
    List Nat → (Nat → Nat) → MatchBlock → ((Nat → Nat) × MatchBlock)
  | [], acc, best => (acc, best)
  | j :: js, acc, best =>
    if j < blo then flmInner blo bhi i j2lenOld js acc best
    else if j ≥ bhi then (acc, best)
    else
      let k := (if j = 0 then 0 else j2lenOld (j - 1)) + 1
      let acc' : Nat → Nat := fun j' => if j' = j then k else acc j'
      let best' := if k > best.bestsize then ⟨i + 1 - k, j + 1 - k, k⟩ else best
      flmInner blo bhi i j2lenOld js acc' best'

/-- Outer loop of `find_longest_match` over `i ∈ [alo, ahi)`; `cnt` is the
    number of remaining iterations (`ahi - alo` initially). -/
def flmOuter (a b : List String) (blo bhi : Nat) :
    Nat → Nat → (Nat → Nat) → MatchBlock → MatchBlock
  | 0, _, _, best => best
  | cnt + 1, i, j2len, best =>
    let p := flmInner blo bhi i j2len (b2jGet b (a.getD i "")) (fun _ => 0) best
    flmOuter a b blo bhi cnt (i + 1) p.1 p.2

/-- Leftward extension `while besti > alo and bestj > blo and a[besti-1] == b[bestj-1]`
    (the junk set is empty, so the `isbjunk` conjunct is vacuous). -/
def flmExtendLeft (a b : List String) (alo blo : Nat) :
    Nat → MatchBlock → MatchBlock
  | 0, m => m
  | fuel + 1, m =>
    if m.besti > alo ∧ m.bestj > blo ∧ a.getD (m.besti - 1) "" = b.getD (m.bestj - 1) "!" then
      flmExtendLeft a b alo blo fuel ⟨m.besti - 1, m.bestj - 1, m.bestsize + 1⟩
    else m

/-- Rightward extension `while besti+bestsize < ahi and ... a[...] == b[...]`. -/
def flmExtendRight (a b : List String) (ahi bhi : Nat) :
    Nat → MatchBlock → MatchBlock
  | 0, m => m
  | fuel + 1, m =>
    if m.besti + m.bestsize < ahi ∧ m.bestj + m.bestsize < bhi ∧
        a.getD (m.besti + m.bestsize) "" = b.getD (m.bestj + m.bestsize) "!" then
      flmExtendRight a b ahi bhi fuel ⟨m.besti, m.bestj, m.bestsize + 1⟩
    else m

/-- Embeds `SequenceMatcher.find_longest_match(alo, ahi, blo, bhi)`. -/
def findLongestMatch (a b : List String) (alo ahi blo bhi : Nat) : MatchBlock :=
  let best := flmOuter a b blo bhi (ahi - alo) alo (fun _ => 0) ⟨alo, blo, 0⟩
  let best := flmExtendLeft a b alo blo best.besti best
  flmExtendRight a b ahi bhi ahi best

/-- Recursive divide-and-conquer of `get_matching_blocks`.  CPython uses an
    explicit LIFO queue and sorts the collected blocks afterwards; in-order
    recursion produces the same sorted list directly (all blocks found left
    of the pivot have smaller `besti` than the pivot, etc.).  The fuel is
    instantiated with `(ahi - alo) + (bhi - blo) + 1`, which bounds the
    recursion depth since each sub-range is strictly smaller. -/
def matchingBlocksAux (a b : List String) :
    Nat → Nat → Nat → Nat → Nat → List MatchBlock
  | 0, _, _, _, _ => []
  | fuel + 1, alo, ahi, blo, bhi =>
    let m := findLongestMatch a b alo ahi blo bhi
    if m.bestsize = 0 then []
    else
      (if alo < m.besti ∧ blo < m.bestj then
        matchingBlocksAux a b fuel alo m.besti blo m.bestj
      else []) ++
      [m] ++
      (if m.besti + m.bestsize < ahi ∧ m.bestj + m.bestsize < bhi then
        matchingBlocksAux a b fuel (m.besti + m.bestsize) ahi
          (m.bestj + m.bestsize) bhi
      else [])

/-- The adjacent-block merging pass at the end of `get_matching_blocks`,
    starting from the accumulator `(i1, j1, k1) = (0, 0, 0)`. -/
def mergeAdjacent : Nat × Nat × Nat → List MatchBlock → List MatchBlock
  | (i1, j1, k1), [] => if k1 ≠ 0 then [⟨i1, j1, k1⟩] else []
  | (i1, j1, k1), m :: rest =>
    if i1 + k1 = m.besti ∧ j1 + k1 = m.bestj then
      mergeAdjacent (i1, j1, k1 + m.bestsize) rest
    else
      (if k1 ≠ 0 then [⟨i1, j1, k1⟩] else []) ++
      mergeAdjacent (m.besti, m.bestj, m.bestsize) rest

/-- Embeds `SequenceMatcher.get_matching_blocks()`, including the final
    `(len(a), len(b), 0)` sentinel. -/
def getMatchingBlocks (a b : List String) : List MatchBlock :=
  mergeAdjacent (0, 0, 0)
      (matchingBlocksAux a b (a.length + b.length + 1) 0 a.length 0 b.length) ++
    [⟨a.length, b.length, 0⟩]

/-- Opcode tags of `SequenceMatcher.get_opcodes()`. -/
inductive OpTag
  | replace
  | delete
  | insert
  | equal
deriving DecidableEq

/-- One opcode `(tag, i1, i2, j1, j2)`. -/
structure Opcode where
  tag : OpTag
  i1 : Nat
  i2 : Nat
  j1 : Nat
  j2 : Nat
deriving DecidableEq

/-- The opcode-emitting loop of `get_opcodes()` over the matching blocks,
    carrying the running position `(i, j)`. -/
def opcodesAux : Nat × Nat → List MatchBlock → List Opcode
  | _, [] => []
  | (i, j), m :: rest =>
    let pre : List Opcode :=
      if i < m.besti ∧ j < m.bestj then [⟨.replace, i, m.besti, j, m.bestj⟩]
      else if i < m.besti then [⟨.delete, i, m.besti, j, m.bestj⟩]
      else if j < m.bestj then [⟨.insert, i, m.besti, j, m.bestj⟩]
      else []
    let eqs : List Opcode :=
      if m.bestsize ≠ 0 then
        [⟨.equal, m.besti, m.besti + m.bestsize, m.bestj, m.bestj + m.bestsize⟩]
      else []
    pre ++ eqs ++ opcodesAux (m.besti + m.bestsize, m.bestj + m.bestsize) rest

/-- Embeds `SequenceMatcher.get_opcodes()`. -/
def getOpcodes (a b : List String) : List Opcode :=
  opcodesAux (0, 0) (getMatchingBlocks a b)

/-- List slice `l[i:j]`. -/
def sliceList (l : List String) (i j : Nat) : List String :=
  (l.drop i).take (j - i)

/-- Widen the first opcode of `get_grouped_opcodes` when it is an `equal`
    run (keep at most `n` trailing context lines). -/
def adjustFirst (n : Nat) : List Opcode → List Opcode
  | [] => []
  | c :: rest =>
    if c.tag = .equal then
      ⟨.equal, max c.i1 (c.i2 - n), c.i2, max c.j1 (c.j2 - n), c.j2⟩ :: rest
    else c :: rest

/-- Narrow the last opcode of `get_grouped_opcodes` when it is an `equal`
    run (keep at most `n` leading context lines). -/
def adjustLast (n : Nat) : List Opcode → List Opcode
  | [] => []
  | [c] =>
    if c.tag = .equal then
      [⟨.equal, c.i1, min c.i2 (c.i1 + n), c.j1, min c.j2 (c.j1 + n)⟩]
    else [c]
  | c :: rest => c :: adjustLast n rest

/-- Group-splitting loop of `get_grouped_opcodes`: a group is emitted
    whenever an interior `equal` run longer than `2n` lines is reached,
    and the final group is emitted unless it is a single `equal` opcode. -/
def groupSplit (n : Nat) : List Opcode → List Opcode → List (List Opcode)
  | group, [] =>
    if group ≠ [] ∧ ¬(group.length = 1 ∧ (group.head?.map Opcode.tag) = some .equal) then
      [group]
    else []
  | group, c :: rest =>
    if c.tag = .equal ∧ c.i2 - c.i1 > 2 * n then
      (group ++ [⟨.equal, c.i1, min c.i2 (c.i1 + n), c.j1, min c.j2 (c.j1 + n)⟩]) ::
        groupSplit n [⟨.equal, max c.i1 (c.i2 - n), c.i2, max c.j1 (c.j2 - n), c.j2⟩] rest
    else groupSplit n (group ++ [c]) rest

/-- Embeds `SequenceMatcher.get_grouped_opcodes(n)`. -/
def getGroupedOpcodes (n : Nat) (a b : List String) : List (List Opcode) :=
  let codes := getOpcodes a b
  let codes := if codes = [] then [⟨.equal, 0, 1, 0, 1⟩] else codes
  groupSplit n [] (adjustLast n (adjustFirst n codes))

/-- Embeds `difflib._format_range_unified`. -/
def formatRangeUnified (start stop : Nat) : String :=
  let beginning := start + 1
  let length := stop - start
  if length = 1 then toString beginning
  else
    let beginning := if length = 0 then beginning - 1 else beginning
    toString beginning ++ "," ++ toString length

/-- The lines emitted for one group by `unified_diff` (hunk header plus
    prefixed content lines; `lineterm` is the empty string). -/
def groupLines (a b : List String) (g : List Opcode) : List String :=
  (match g.head?, g.getLast? with
   | some first, some last =>
     ["@@ -" ++ formatRangeUnified first.i1 last.i2 ++
      " +" ++ formatRangeUnified first.j1 last.j2 ++ " @@"]
   | _, _ => []) ++
  g.flatMap (fun c =>
    match c.tag with
    | .equal => (sliceList a c.i1 c.i2).map (" " ++ ·)
    | .replace =>
      (sliceList a c.i1 c.i2).map ("-" ++ ·) ++ (sliceList b c.j1 c.j2).map ("+" ++ ·)
    | .delete => (sliceList a c.i1 c.i2).map ("-" ++ ·)
    | .insert => (sliceList b c.j1 c.j2).map ("+" ++ ·))

/-- Embeds `difflib.unified_diff(a, b, fromfile, tofile, lineterm="")` with the
    default `n=3` context, as a list of lines.  The two file-header lines
    are emitted once, before the first group. -/
def unifiedDiff (a b : List String) (fromfile tofile : String) : List String :=
  match getGroupedOpcodes 3 a b with
  | [] => []
  | groups =>
    ("--- " ++ fromfile) :: ("+++ " ++ tofile) ::
      groups.flatMap (groupLines a b)

/-! ## `core/patch_engine.py` -/

/-- One structured changed region (`changed_blocks` entry). -/
structure ChangedBlock where
  line_number : Nat
  before : String
  after : String
deriving DecidableEq

/-- Return value of `apply_full_file_patch`. -/
structure PatchResult where
  success : Bool
  diff : String
  changed_blocks : List ChangedBlock
deriving DecidableEq

/-- Embeds `apply_full_file_patch(workspace_path, filename, new_content)`.
    Returns the updated filesystem together with the result dict.  When the
    target file is missing the original returns early without writing. -/
def apply_full_file_patch (fs : FS) (workspace_path filename new_content : String) :
    FS × PatchResult :=
  let file_path := pyJoin workspace_path filename
  match fs file_path with
  | none => (fs, ⟨false, "", []⟩)
  | some original_content =>
    let original_lines := pySplitlines original_content
    let new_lines := pySplitlines new_content
    let diff_text := pyJoinSep "\n"
      (unifiedDiff original_lines new_lines ("a/" ++ filename) ("b/" ++ filename))
    let changed_blocks := (getOpcodes original_lines new_lines).filterMap
      (fun c =>
        match c.tag with
        | .equal => none
        | _ => some ⟨c.i1 + 1,
            pyStrip (pyJoinSep "\n" (sliceList original_lines c.i1 c.i2)),
            pyStrip (pyJoinSep "\n" (sliceList new_lines c.j1 c.j2))⟩)
    (fsWrite fs file_path new_content, ⟨true, diff_text, changed_blocks⟩)

/-! ## Guest-language AST model

`ast.parse` is external; its result is modelled by `PyModule`.  Only the
node shapes inspected by the repository are distinguished: top-level
function/async-function/class definitions (with their names), `import` and
`from ... import` statements (which `ast.walk` finds at any nesting depth),
and a catch-all `other` carrying nested statements. -/

inductive PyStmt
  | functionDef (name : String) (body : List PyStmt)
  | asyncFunctionDef (name : String) (body : List PyStmt)
  | classDef (name : String) (body : List PyStmt)
  | importStmt (names : List String)
  | importFrom (level : Nat) (module : Option String)
  | other (body : List PyStmt)

/-- A parsed module: its top-level statement list (`tree.body`). -/
structure PyModule where
  body : List PyStmt

/-- The oracle standing for `ast.parse`: source text to parsed module, or
    `none` on `SyntaxError`. -/
def PyParse : Type := String → Option PyModule

/-- Embeds `alias.name.split(".")[0]` / `node.module.split(".")[0]`. -/
def dottedRoot (name : String) : String :=
  String.mk (name.data.takeWhile (· ≠ '.'))

mutual

/-- Import roots contributed by one statement and its nested statements,
    as collected by the `ast.walk` loop of `extract_import_roots`. -/
def stmtImportRoots : PyStmt → List String
  | .functionDef _ body => stmtsImportRoots body
  | .asyncFunctionDef _ body => stmtsImportRoots body
  | .classDef _ body => stmtsImportRoots body
  | .importStmt names => names.map dottedRoot
  | .importFrom level module =>
    match module with
    | some m => if level = 0 ∧ m ≠ "" then [dottedRoot m] else []
    | none => []
  | .other body => stmtsImportRoots body

/-- Recursion of `stmtImportRoots` over a statement list. -/
def stmtsImportRoots : List PyStmt → List String
  | [] => []
  | s :: rest => stmtImportRoots s ++ stmtsImportRoots rest

end

/-- Embeds `extract_import_roots(source)` (nested local function of
    `generate_patch_node` in `core/nodes.py`): the set of top-level module
    roots imported anywhere in the source; empty on a syntax error.
    The Python `set` is modelled as a deduplicated list; membership in it
    is exactly set membership. -/
def extract_import_roots (parse : PyParse) (source : String) : List String :=
  match parse source with
  | none => []
  | some tree => (stmtsImportRoots tree.body).dedup

/-- Lexicographic (code-point) string order, the order used by Python
    `sorted` on strings. -/
def strLeB : List Char → List Char → Bool
  | [], _ => true
  | _ :: _, [] => false
  | a :: as, b :: bs => if a < b then true else if b < a then false else strLeB as bs

/-- Insertion into an ascending list. -/
def insertSorted (x : String) : List String → List String
  | [] => [x]
  | y :: ys => if strLeB x.data y.data then x :: y :: ys else y :: insertSorted x ys

/-- Python `sorted` on a list of strings (ascending code-point order). -/
def pySorted (l : List String) : List String := l.foldr insertSorted []

/-- Embeds `extract_top_level_symbols(source)`: the set of `(flavor, name)` pairs
    for top-level function/async-function/class definitions; empty on a
    syntax error. -/
def extract_top_level_symbols (parse : PyParse) (source : String) :
    Finset (String × String) :=
  match parse source with
  | none => ∅
  | some tree =>
    (tree.body.filterMap (fun node =>
      match node with
      | .functionDef name _ => some ("function", name)
      | .asyncFunctionDef name _ => some ("async_function", name)
      | .classDef name _ => some ("class", name)
      | _ => none)).toFinset

/-! ## `core/llm_client.py` and the validator helpers of `core/nodes.py` -/

/-- The explanatory-phrase denylist of `validate_llm_patch` (all patterns
    are literal strings, so `re.search` is substring search). -/
def explanation_patterns : List String :=
  ["here is", "fixed code", "updated code", "explanation", "this fixes", "the issue"]

/-- Embeds `validate_llm_patch(content)`: reject code fences, explanatory prose
    (case-insensitively), and syntactically invalid source. -/
def validate_llm_patch (parse : PyParse) (content : String) : Bool :=
  if pyContains content "```" then false
  else if explanation_patterns.any (fun p => pyContains (pyLower content) p) then false
  else
    match parse content with
    | none => false
    | some _ => true

/-- Embeds `has_new_third_party_imports(original, candidate)` (nested in
    `generate_patch_node`), parameterised by the interpreter's
    standard/built-in module set `stdlib`
    (`sys.stdlib_module_names ∪ sys.builtin_module_names`). -/
def has_new_third_party_imports (parse : PyParse) (stdlib : Finset String)
    (original candidate : String) : Bool × List String :=
  let original_imports := extract_import_roots parse original
  let candidate_imports := extract_import_roots parse candidate
  let new_imports := candidate_imports.filter (fun m => m ∉ original_imports)
  let third_party_imports :=
    pySorted (new_imports.filter (fun m => m ≠ "" ∧ m ∉ stdlib))
  (!third_party_imports.isEmpty, third_party_imports)

/-- Embeds `looks_incomplete_patch(original, candidate)` (nested in
    `generate_patch_node`): the non-truncation heuristic. -/
def looks_incomplete_patch (parse : PyParse) (original candidate : String) : Bool :=
  if pyStrip candidate = "" then true
  else
    let original_len := original.length
    let candidate_len := candidate.length
    let original_lines := (pySplitlines original).length
    let candidate_lines := (pySplitlines candidate).length
    if original_len ≥ 2000 ∧ candidate_len < 9 * original_len / 10 then true
    else if original_lines ≥ 120 ∧ candidate_lines < 9 * original_lines / 10 then true
    else
      let original_symbols := extract_top_level_symbols parse original
      let candidate_symbols := extract_top_level_symbols parse candidate
      if original_symbols ≠ ∅ ∧
          10 * (original_symbols ∩ candidate_symbols).card < 9 * original_symbols.card then
        true
      else
        let removed_added := (getOpcodes (pySplitlines original) (pySplitlines candidate)).foldl
          (fun acc c =>
            match c.tag with
            | .replace => (acc.1 + (c.i2 - c.i1), acc.2 + (c.j2 - c.j1))
            | .delete => (acc.1 + (c.i2 - c.i1), acc.2)
            | .insert => (acc.1, acc.2 + (c.j2 - c.j1))
            | .equal => acc)
          ((0, 0) : Nat × Nat)
        if removed_added.1 ≥ 80 ∧ removed_added.1 > removed_added.2 * 3 then true
        else false

/-- The fence-stripping applied to raw provider output in `try_provider`
    (`core/nodes.py` line 308) before any validation runs. -/
def strip_llm_output (raw : String) : String :=
  pyStrip (pyReplace (pyReplace raw "```python" "") "```" "")

/-- The per-attempt acceptance decision of `try_provider`
    (`core/nodes.py` lines 308–317): strip fences, then require the three
    validator checks to pass on the stripped text. -/
def patch_acceptance (parse : PyParse) (stdlib : Finset String)
    (original raw : String) : Bool :=
  let out := strip_llm_output raw
  validate_llm_patch parse out &&
    !looks_incomplete_patch parse original out &&
    !(has_new_third_party_imports parse stdlib original out).1

/-! ## `core/error_classifier.py` -/

/-- The infrastructure keyword list of `classify_error`. -/
def infra_keywords : List String :=
  ["401", "403", "unauthorized", "forbidden", "rate limit", "timeout",
   "connection refused", "connectionerror", "network is unreachable",
   "ssl error", "credential", "access denied"]

/-! ## `core/state.py` -/

/-- Terminal statuses (`class Status`). -/
inductive Status
  | RUNNING
  | INFRA_STOP
  | SUCCESS
  | FAILED
  | NOT_REPRODUCIBLE
deriving DecidableEq

/-- Error classification kinds (`class ErrorType`). -/
inductive ErrorType
  | CODE_ERROR
  | INFRA_ERROR
  | NO_ERROR
deriving DecidableEq

/-- Embeds `classify_error(stderr)`: the returned `type` field (the `reason`
    string accompanies it in the source dict but is never branched on). -/
def classify_error (stderr : String) : ErrorType :=
  if stderr = "" then .NO_ERROR
  else if infra_keywords.any (fun k => pyContains (pyLower stderr) k) then .INFRA_ERROR
  else .CODE_ERROR

/-- Sandbox execution result dict `{exit_code, stdout, stderr}`. -/
structure ExecResult where
  exit_code : Int
  stdout : String
  stderr : String
deriving DecidableEq

/-- Embeds `class OpsGuardState` with its field defaults. -/
structure OpsGuardState where
  repo_path : String
  error_log : String
  entry_file : String := "app.py"
  verification_mode : String := "entry"
  error_type : Option ErrorType := none
  workspace_path : Option String := none
  reproduction_script_path : Option String := none
  reproduction_result : Option ExecResult := none
  reproduction_verified : Bool := false
  reproduce_retries : Nat := 0
  patch_content : Option String := none
  patch_diff : Option String := none
  human_readable_changes : Option (List ChangedBlock) := none
  fix_result : Option ExecResult := none
  fix_verified : Bool := false
  fix_retries : Nat := 0
  status : Status := .RUNNING
deriving DecidableEq

/-- Python truthiness test `not state.patch_content`: `None` or `""`. -/
def patchFalsy (s : OpsGuardState) : Prop :=
  s.patch_content = none ∨ s.patch_content = some ""

instance (s : OpsGuardState) : Decidable (patchFalsy s) := by
  unfold patchFalsy
  infer_instance

/-! ## `core/graph.py` and `core/nodes.py`: the orchestrator -/

/-- The graph's named nodes, plus `END` and a `crash` sink standing for an
    uncaught Python exception inside a node (e.g. subscripting a `None`
    result). -/
inductive Node
  | setup_workspace
  | generate_reproduction_script
  | execute_reproduction
  | classify_error
  | reproduction_decision
  | generate_infra_report
  | generate_patch
  | apply_patch
  | syntax_check
  | execute_fix_test
  | fix_decision
  | generate_fail_report
  | generate_not_reproducible
  | generate_final_report
  | END
  | crash
deriving DecidableEq

/-- The run's environment: every value produced by an external collaborator,
    indexed by invocation count so that an arbitrary (adversarial) behaviour
    of the collaborators is representable.

    `workspace` and `fs0` — Modelled from the spec: `core/workspace.py`
    (`create_workspace`) is not present under `src/`; per the spec it copies
    the target repository into an ephemeral, disposable location and returns
    that location.  It is modelled as an environment-supplied workspace path
    together with the provisioned workspace contents. -/
structure Env where
  parse : PyParse
  stdlib : Finset String
  workspace : String
  fs0 : FS
  cwd : String
  sandbox : Nat → ExecResult
  compile_ok : Nat → Bool
  llm : Nat → Option String

/-- The orchestrator's world: the threaded `OpsGuardState`, the filesystem,
    the current graph node, invocation counters for environment indexing,
    and instrumentation (`classifyCount`, `finalCount`, `statusWrites`)
    counting node executions and `status` assignments along the run. -/
structure World where
  state : OpsGuardState
  fs : FS
  node : Node
  sandboxCount : Nat
  compileCount : Nat
  llmCount : Nat
  reproCount : Nat
  classifyCount : Nat
  finalCount : Nat
  statusWrites : Nat

/-- Embeds `setup_router` (`core/graph.py`). -/
def setup_router (s : OpsGuardState) : Node :=
  if s.status = .FAILED then .generate_final_report
  else .generate_reproduction_script

/-- Embeds `reproduction_router` (`core/graph.py`). -/
def reproduction_router (s : OpsGuardState) : Node :=
  if s.error_type = some .INFRA_ERROR then .generate_infra_report
  else if s.reproduction_verified then .generate_patch
  else if s.reproduce_retries ≥ 2 then .generate_not_reproducible
  else .generate_reproduction_script

/-- Embeds `fix_router` (`core/graph.py`). -/
def fix_router (s : OpsGuardState) : Node :=
  if s.status = .SUCCESS then .generate_final_report
  else if s.fix_retries ≥ 3 then .generate_fail_report
  else .generate_patch

/-- Embeds `setup_workspace_node`: provision the workspace, then validate that the
    entry file (and in pytest mode the tests directory) exists. -/
def setup_workspace_node (env : Env) (fs : FS) (s : OpsGuardState) : OpsGuardState :=
  let s := { s with workspace_path := some env.workspace }
  let entry_path := pyJoin env.workspace s.entry_file
  if ¬ fsExists fs entry_path then
    { s with status := .FAILED, error_type := some .CODE_ERROR }
  else if s.verification_mode = "pytest" ∧ ¬ fsExists fs (pyJoin env.workspace "tests") then
    { s with status := .FAILED, error_type := some .CODE_ERROR }
  else s

/-- Embeds `generate_reproduction_script_node`: the reproduction target is always
    the entry file. -/
def generate_reproduction_script_node (s : OpsGuardState) : OpsGuardState :=
  { s with reproduction_script_path := some s.entry_file }

/-- Embeds `execute_reproduction_node` given the sandbox result: store it and
    overwrite `error_log` with its stderr. -/
def execute_reproduction_node (result : ExecResult) (s : OpsGuardState) : OpsGuardState :=
  { s with reproduction_result := some result, error_log := result.stderr }

/-- Embeds `classify_error_node`. -/
def classify_error_node (s : OpsGuardState) : OpsGuardState :=
  { s with error_type := some (classify_error s.error_log) }

/-- Embeds `reproduction_decision_node`; `none` models the `TypeError` raised when
    `reproduction_result` is still `None`. -/
def reproduction_decision_node (s : OpsGuardState) : Option OpsGuardState :=
  match s.reproduction_result with
  | none => none
  | some r =>
    if r.exit_code ≠ 0 then some { s with reproduction_verified := true }
    else some { s with reproduce_retries := s.reproduce_retries + 1 }

/-- Embeds `generate_infra_report_node`. -/
def generate_infra_report_node (s : OpsGuardState) : OpsGuardState :=
  { s with status := .INFRA_STOP }

/-- Embeds `generate_fail_report_node`. -/
def generate_fail_report_node (s : OpsGuardState) : OpsGuardState :=
  { s with status := .FAILED }

/-- Embeds `generate_not_reproducible_node`. -/
def generate_not_reproducible_node (s : OpsGuardState) : OpsGuardState :=
  { s with status := .NOT_REPRODUCIBLE }

/-- Embeds `try_provider` (nested in `generate_patch_node`): up to three attempts;
    a transport exception (`env.llm idx = none`) abandons the provider; an
    accepted attempt returns the stripped output.  The rejection-feedback
    messages rebuilt between attempts only shape the context sent to the
    external provider, whose replies the environment already fixes, so they
    need no separate model.  Returns the provider's result and the next
    provider-call index. -/
def tryProviderAux (env : Env) (original : String) :
    Nat → Nat → Option String × Nat
  | 0, idx => (none, idx)
  | attempts + 1, idx =>
    match env.llm idx with
    | none => (none, idx + 1)
    | some raw =>
      let out := strip_llm_output raw
      if patch_acceptance env.parse env.stdlib original raw then (some out, idx + 1)
      else tryProviderAux env original attempts (idx + 1)

/-- Embeds `generate_patch_node`: read the entry file, try the first provider, fall
    back to the second; on total failure set `patch_content = ""` and bump
    `fix_retries`.  `none` models the `FileNotFoundError`/`TypeError` when
    the workspace or entry file is unavailable.  Also returns the next
    provider-call index. -/
def generate_patch_node (env : Env) (fs : FS) (llmIdx : Nat) (s : OpsGuardState) :
    Option (OpsGuardState × Nat) :=
  match s.workspace_path with
  | none => none
  | some ws =>
    match fs (pyJoin ws s.entry_file) with
    | none => none
    | some original_code =>
      let r1 := tryProviderAux env original_code 3 llmIdx
      match r1.1 with
      | some out => some ({ s with patch_content := some out }, r1.2)
      | none =>
        let r2 := tryProviderAux env original_code 3 r1.2
        match r2.1 with
        | some out => some ({ s with patch_content := some out }, r2.2)
        | none =>
          some ({ s with fix_retries := s.fix_retries + 1, patch_content := some "" }, r2.2)

/-- Embeds `apply_patch_node`: skip on an empty/absent patch; otherwise apply the
    full-file patch, record diff and changed regions, and save the patch
    artifact under `cwd/artifacts/internal/latest_patch.py`.  `none` models
    the `TypeError` when `workspace_path` is `None`. -/
def apply_patch_node (cwd : String) (s : OpsGuardState) (fs : FS) :
    Option (OpsGuardState × FS) :=
  if patchFalsy s then
    some ({ s with patch_diff := some "", human_readable_changes := some [] }, fs)
  else
    match s.workspace_path with
    | none => none
    | some ws =>
      let content := s.patch_content.getD ""
      let r := apply_full_file_patch fs ws s.entry_file content
      let fs := r.1
      let s := { s with patch_diff := some r.2.diff,
                        human_readable_changes := some r.2.changed_blocks }
      let patch_file := pyJoin (pyJoin (pyJoin cwd "artifacts") "internal") "latest_patch.py"
      some (s, fsWrite fs patch_file content)

/-- Embeds `syntax_check_node` given the `py_compile` verdict: skip on an
    empty/absent patch; count a failed compile against `fix_retries`. -/
def syntax_check_node (compileOk : Bool) (s : OpsGuardState) : OpsGuardState :=
  if patchFalsy s then s
  else if compileOk then s
  else { s with fix_retries := s.fix_retries + 1 }

/-- The sentinel stderr marking a skipped fix execution. -/
def validation_sentinel : String := "Patch generation failed validation"

/-- Embeds `execute_fix_test_node`: on an empty/absent patch synthesise the failing
    sentinel result without a sandbox call; otherwise store the sandbox
    result (pytest or entry-file execution, per `verification_mode`;
    both are environment calls).  Returns the state and whether a sandbox
    invocation happened. -/
def execute_fix_test_node (result : ExecResult) (s : OpsGuardState) :
    OpsGuardState × Bool :=
  if patchFalsy s then
    ({ s with fix_result := some ⟨1, "", validation_sentinel⟩ }, false)
  else
    ({ s with fix_result := some result }, true)

/-- Embeds `fix_decision_node`; `none` models the `TypeError` when `fix_result` is
    still `None` (the sentinel guard short-circuits on a falsy value and the
    subsequent subscript would raise). -/
def fix_decision_node (s : OpsGuardState) : Option OpsGuardState :=
  match s.fix_result with
  | none => none
  | some r =>
    if r.stderr = validation_sentinel then some s
    else if r.exit_code = 0 then
      some { s with fix_verified := true, status := .SUCCESS }
    else some { s with fix_retries := s.fix_retries + 1 }

/-- Embeds `diff summary` computation of `generate_final_report_node`
    (`core/nodes.py` lines 543–550): lines added / removed, scanning the
    diff for leading `+`/`-` and excluding the `+++`/`---` file headers. -/
def patch_diff_summary (diff : String) : Nat × Nat :=
  let lines := pySplitlines diff
  ((lines.filter (fun l => pyStartsWith l "+" ∧ ¬ pyStartsWith l "+++")).length,
   (lines.filter (fun l => pyStartsWith l "-" ∧ ¬ pyStartsWith l "---")).length)

/-- One small step of the compiled graph: execute the current node's
    function, then follow the (conditional) edge chosen by the routers of
    `build_graph`.  `END` and `crash` are absorbing.  Consumed environment
    values are tracked by the invocation counters. -/
def stepCore (env : Env) (w : World) : World :=
  match w.node with
  | .setup_workspace =>
    let s := setup_workspace_node env w.fs w.state
    { w with state := s, node := setup_router s }
  | .generate_reproduction_script =>
    { w with state := generate_reproduction_script_node w.state,
             node := .execute_reproduction }
  | .execute_reproduction =>
    let r := env.sandbox w.sandboxCount
    { w with state := execute_reproduction_node r w.state,
             node := .classify_error,
             sandboxCount := w.sandboxCount + 1,
             reproCount := w.reproCount + 1 }
  | .classify_error =>
    { w with state := classify_error_node w.state,
             node := .reproduction_decision,
             classifyCount := w.classifyCount + 1 }
  | .reproduction_decision =>
    match reproduction_decision_node w.state with
    | none => { w with node := .crash }
    | some s => { w with state := s, node := reproduction_router s }
  | .generate_infra_report =>
    { w with state := generate_infra_report_node w.state,
             node := .generate_final_report }
  | .generate_patch =>
    match generate_patch_node env w.fs w.llmCount w.state with
    | none => { w with node := .crash }
    | some (s, idx) => { w with state := s, node := .apply_patch, llmCount := idx }
  | .apply_patch =>
    match apply_patch_node env.cwd w.state w.fs with
    | none => { w with node := .crash }
    | some (s, fs) => { w with state := s, fs := fs, node := .syntax_check }
  | .syntax_check =>
    if patchFalsy w.state then
      { w with state := syntax_check_node true w.state, node := .execute_fix_test }
    else
      { w with state := syntax_check_node (env.compile_ok w.compileCount) w.state,
               node := .execute_fix_test,
               compileCount := w.compileCount + 1 }
  | .execute_fix_test =>
    let p := execute_fix_test_node (env.sandbox w.sandboxCount) w.state
    { w with state := p.1, node := .fix_decision,
             sandboxCount := w.sandboxCount + (if p.2 then 1 else 0) }
  | .fix_decision =>
    match fix_decision_node w.state with
    | none => { w with node := .crash }
    | some s => { w with state := s, node := fix_router s }
  | .generate_fail_report =>
    { w with state := generate_fail_report_node w.state,
             node := .generate_final_report }
  | .generate_not_reproducible =>
    { w with state := generate_not_reproducible_node w.state,
             node := .generate_final_report }
  | .generate_final_report =>
    { w with node := .END, finalCount := w.finalCount + 1 }
  | .END => w
  | .crash => w

/-- One step plus instrumentation of `status` writes: the counter is bumped
    exactly when the step changes `status` (every assignment in the source
    stores a constant different from `RUNNING`, and no node ever re-stores
    an unchanged terminal status, so changes coincide with assignments). -/
def step (env : Env) (w : World) : World :=
  let w' := stepCore env w
  { w' with statusWrites :=
      w.statusWrites + (if w'.state.status = w.state.status then 0 else 1) }

/-- The initial world of one run: the CLI builds the initial `OpsGuardState`
    from the target path and error text (remaining fields at their
    defaults) and the graph's entry point is `setup_workspace`. -/
def initWorld (env : Env) (repo error_log entry mode : String) : World :=
  { state := { repo_path := repo, error_log := error_log,
               entry_file := entry, verification_mode := mode }
    fs := env.fs0
    node := .setup_workspace
    sandboxCount := 0
    compileCount := 0
    llmCount := 0
    reproCount := 0
    classifyCount := 0
    finalCount := 0
    statusWrites := 0 }

/-- Embeds `n` steps of the compiled graph. -/
def runN (env : Env) (w0 : World) : Nat → World
  | 0 => w0
  | n + 1 => step env (runN env w0 n)

/-! ## The run invariant -/

/-- The reproduction-loop nodes. -/
def inReproPhase (n : Node) : Prop :=
  n = .generate_reproduction_script ∨ n = .execute_reproduction ∨
    n = .classify_error ∨ n = .reproduction_decision

/-- The fix-loop nodes. -/
def inFixPhase (n : Node) : Prop :=
  n = .generate_patch ∨ n = .apply_patch ∨ n = .syntax_check ∨
    n = .execute_fix_test ∨ n = .fix_decision

/-- An empty candidate is flagged as incomplete (first branch of
    `looks_incomplete_patch`). -/
theorem looks_incomplete_empty (parse : PyParse) (original : String) :
    looks_incomplete_patch parse original "" = true := by
  have h : pyStrip "" = "" := rfl
  unfold looks_incomplete_patch
  rw [if_pos h]

/-- An accepted attempt never carries the empty stripped output. -/
theorem patch_acceptance_ne_empty (parse : PyParse) (stdlib : Finset String)
    (original raw : String) (h : patch_acceptance parse stdlib original raw = true) :
    strip_llm_output raw ≠ "" := by
  intro he
  unfold patch_acceptance at h
  rw [he] at h
  simp [looks_incomplete_empty] at h

/-- A successful `try_provider` result is a non-empty accepted output. -/
theorem tryProviderAux_some_ne_empty (env : Env) (original : String) :
    ∀ (n idx : Nat) (out : String) (j : Nat),
      tryProviderAux env original n idx = (some out, j) → out ≠ "" := by
  intro n
  induction n with
  | zero => intro idx out j h; simp [tryProviderAux] at h
  | succ m ih =>
    intro idx out j h
    unfold tryProviderAux at h
    cases hr : env.llm idx with
    | none => rw [hr] at h; simp at h
    | some raw =>
      rw [hr] at h
      by_cases ha : patch_acceptance env.parse env.stdlib original raw = true
      · simp only [ha, if_true] at h
        have hout : strip_llm_output raw = out := by
          have h1 := congrArg Prod.fst h
          simpa using h1
        rw [← hout]
        exact patch_acceptance_ne_empty env.parse env.stdlib original raw ha
      · simp only [ha, if_false] at h
        exact ih (idx + 1) out j h

/-- Inductive invariant of the compiled graph, strong enough to prove the
    terminal-status, retry-ceiling and classification-count properties. -/
structure MachineInv (env : Env) (w : World) : Prop where
  status_node : w.state.status ≠ .RUNNING →
    w.node = .generate_final_report ∨ w.node = .END
  end_status : (w.node = .generate_final_report ∨ w.node = .END) →
    w.state.status ≠ .RUNNING
  writes_eq : w.statusWrites = (if w.state.status = .RUNNING then 0 else 1)
  final_eq : w.finalCount = (if w.node = .END then 1 else 0)
  no_crash : w.node ≠ .crash
  repro_le : w.state.reproduce_retries ≤ 2
  repro_loop : inReproPhase w.node → w.state.reproduce_retries ≤ 1
  nr_eq : w.node = .generate_not_reproducible → w.state.reproduce_retries = 2
  fix_le : w.state.fix_retries ≤ 4
  pre_fix0 : (w.node = .setup_workspace ∨ inReproPhase w.node) →
    w.state.fix_retries = 0
  setup_repro0 : w.node = .setup_workspace → w.state.reproduce_retries = 0
  gp_le : w.node = .generate_patch → w.state.fix_retries ≤ 2
  ap_sc : (w.node = .apply_patch ∨ w.node = .syntax_check) →
    (patchFalsy w.state → w.state.fix_retries ≤ 3) ∧
    (¬ patchFalsy w.state → w.state.fix_retries ≤ 2)
  ef_fd : (w.node = .execute_fix_test ∨ w.node = .fix_decision) →
    w.state.fix_retries ≤ 3
  fail_ge : w.node = .generate_fail_report → 3 ≤ w.state.fix_retries
  repro_res : (w.node = .classify_error ∨ w.node = .reproduction_decision) →
    w.state.reproduction_result.isSome
  fix_res : w.node = .fix_decision → w.state.fix_result.isSome
  entry_avail : (inReproPhase w.node ∨ inFixPhase w.node) →
    w.state.workspace_path = some env.workspace ∧
    (w.fs (pyJoin env.workspace w.state.entry_file)).isSome
  cnt_at_classify : w.node = .classify_error →
    w.classifyCount + 1 = w.reproCount
  cnt_elsewhere : w.node ≠ .classify_error → w.classifyCount = w.reproCount

/-- The invariant holds initially. -/
theorem machineInv_init (env : Env) (repo error_log entry mode : String) :
    MachineInv env (initWorld env repo error_log entry mode) := by
  constructor <;> simp [initWorld, inReproPhase, inFixPhase]

set_option maxHeartbeats 2000000 in
/-- The invariant is preserved by every step. -/
theorem machineInv_step (env : Env) (w : World) (h : MachineInv env w) :
    MachineInv env (step env w) := by
  obtain ⟨status_node, end_status, writes_eq, final_eq, no_crash, repro_le, repro_loop,
    nr_eq, fix_le, pre_fix0, setup_repro0, gp_le, ap_sc, ef_fd, fail_ge, repro_res,
    fix_res, entry_avail, cnt_at_classify, cnt_elsewhere⟩ := h
  cases hn : w.node with
  | setup_workspace =>
    have hrun : w.state.status = .RUNNING := by
      by_contra hne
      rcases status_node hne with h1 | h1 <;> rw [hn] at h1 <;> exact absurd h1 (by simp)
    have hr0 := setup_repro0 hn
    have hf0 := pre_fix0 (Or.inl hn)
    simp only [step, stepCore, hn, setup_workspace_node, setup_router]
    by_cases he : w.fs (pyJoin env.workspace w.state.entry_file) = none <;>
      by_cases hp : w.state.verification_mode = "pytest" <;>
      by_cases ht : w.fs (pyJoin env.workspace "tests") = none <;>
      constructor <;>
      simp_all [inReproPhase, inFixPhase, fsExists, Option.isSome_iff_ne_none]
  | generate_reproduction_script =>
    have hrl := repro_loop (by rw [hn]; exact Or.inl rfl)
    have hf0 := pre_fix0 (Or.inr (by rw [hn]; exact Or.inl rfl))
    have hav := entry_avail (Or.inl (by rw [hn]; exact Or.inl rfl))
    have hce := cnt_elsewhere (by rw [hn]; simp)
    simp only [step, stepCore, hn, generate_reproduction_script_node]
    constructor <;> simp_all [inReproPhase, inFixPhase]
  | execute_reproduction =>
    have hrl := repro_loop (by rw [hn]; exact Or.inr (Or.inl rfl))
    have hf0 := pre_fix0 (Or.inr (by rw [hn]; exact Or.inr (Or.inl rfl)))
    have hav := entry_avail (Or.inl (by rw [hn]; exact Or.inr (Or.inl rfl)))
    have hce := cnt_elsewhere (by rw [hn]; simp)
    simp only [step, stepCore, hn, execute_reproduction_node]
    constructor <;> simp_all [inReproPhase, inFixPhase]
  | classify_error =>
    have hrl := repro_loop (by rw [hn]; exact Or.inr (Or.inr (Or.inl rfl)))
    have hf0 := pre_fix0 (Or.inr (by rw [hn]; exact Or.inr (Or.inr (Or.inl rfl))))
    have hav := entry_avail (Or.inl (by rw [hn]; exact Or.inr (Or.inr (Or.inl rfl))))
    have hcc := cnt_at_classify hn
    have hres := repro_res (Or.inl hn)
    simp only [step, stepCore, hn, classify_error_node]
    constructor <;> simp_all [inReproPhase, inFixPhase]
  | reproduction_decision =>
    have hrl := repro_loop (by rw [hn]; exact Or.inr (Or.inr (Or.inr rfl)))
    have hf0 := pre_fix0 (Or.inr (by rw [hn]; exact Or.inr (Or.inr (Or.inr rfl))))
    have hav := entry_avail (Or.inl (by rw [hn]; exact Or.inr (Or.inr (Or.inr rfl))))
    have hce := cnt_elsewhere (by rw [hn]; simp)
    have hres := repro_res (Or.inr hn)
    have hrun : w.state.status = .RUNNING := by
      by_contra hne
      rcases status_node hne with h1 | h1 <;> rw [hn] at h1 <;> exact absurd h1 (by simp)
    rcases hrr : w.state.reproduction_result with _ | r
    · rw [hrr] at hres; simp at hres
    simp only [step, stepCore, hn, reproduction_decision_node, hrr, reproduction_router]
    by_cases hinfra : w.state.error_type = some ErrorType.INFRA_ERROR <;>
      by_cases hec : r.exit_code = 0 <;>
      by_cases hver : w.state.reproduction_verified = true <;>
      by_cases hge : w.state.reproduce_retries + 1 ≥ 2 <;>
      constructor <;> simp_all [inReproPhase, inFixPhase] <;> omega
  | generate_infra_report =>
    have hrun : w.state.status = .RUNNING := by
      by_contra hne
      rcases status_node hne with h1 | h1 <;> rw [hn] at h1 <;> exact absurd h1 (by simp)
    have hce := cnt_elsewhere (by rw [hn]; simp)
    simp only [step, stepCore, hn, generate_infra_report_node]
    constructor <;> simp_all [inReproPhase, inFixPhase]
  | generate_patch =>
    have hav := entry_avail (Or.inr (by rw [hn]; exact Or.inl rfl))
    have hgp := gp_le hn
    have hce := cnt_elsewhere (by rw [hn]; simp)
    have hrun : w.state.status = .RUNNING := by
      by_contra hne
      rcases status_node hne with h1 | h1 <;> rw [hn] at h1 <;> exact absurd h1 (by simp)
    obtain ⟨hws, hfile⟩ := hav
    rcases hcode : w.fs (pyJoin env.workspace w.state.entry_file) with _ | code
    · rw [hcode] at hfile; simp at hfile
    simp only [step, stepCore, hn, generate_patch_node, hws, hcode]
    rcases h1 : tryProviderAux env code 3 w.llmCount with ⟨r1, idx1⟩
    rcases r1 with _ | out1
    · rcases h2 : tryProviderAux env code 3 idx1 with ⟨r2, idx2⟩
      rcases r2 with _ | out2
      · simp only [h1, h2]
        constructor <;>
          simp_all [inReproPhase, inFixPhase, patchFalsy] <;> omega
      · have hne2 := tryProviderAux_some_ne_empty env code 3 idx1 out2 idx2 h2
        simp only [h1, h2]
        constructor <;>
          simp_all [inReproPhase, inFixPhase, patchFalsy] <;> omega
    · have hne1 := tryProviderAux_some_ne_empty env code 3 w.llmCount out1 idx1 h1
      simp only [h1]
      constructor <;>
        simp_all [inReproPhase, inFixPhase, patchFalsy] <;> omega
  | apply_patch =>
    have hav := entry_avail (Or.inr (by rw [hn]; exact Or.inr (Or.inl rfl)))
    have hb := ap_sc (Or.inl hn)
    have hce := cnt_elsewhere (by rw [hn]; simp)
    have hrun : w.state.status = .RUNNING := by
      by_contra hne
      rcases status_node hne with h1 | h1 <;> rw [hn] at h1 <;> exact absurd h1 (by simp)
    obtain ⟨hws, hfile⟩ := hav
    rcases horig : w.fs (pyJoin env.workspace w.state.entry_file) with _ | orig
    · rw [horig] at hfile; simp at hfile
    simp only [step, stepCore, hn, apply_patch_node, hws, apply_full_file_patch, horig]
    by_cases hpf : patchFalsy w.state <;>
      constructor <;>
      simp_all [inReproPhase, inFixPhase, patchFalsy, fsWrite_isSome] <;> omega
  | syntax_check =>
    have hav := entry_avail (Or.inr (by rw [hn]; exact Or.inr (Or.inr (Or.inl rfl))))
    have hb := ap_sc (Or.inr hn)
    have hce := cnt_elsewhere (by rw [hn]; simp)
    simp only [step, stepCore, hn, syntax_check_node]
    by_cases hpf : patchFalsy w.state <;>
      by_cases hok : env.compile_ok w.compileCount = true <;>
      constructor <;>
      simp_all [inReproPhase, inFixPhase] <;> omega
  | execute_fix_test =>
    have hav := entry_avail (Or.inr (by rw [hn]; exact Or.inr (Or.inr (Or.inr (Or.inl rfl)))))
    have hb := ef_fd (Or.inl hn)
    have hce := cnt_elsewhere (by rw [hn]; simp)
    simp only [step, stepCore, hn, execute_fix_test_node]
    by_cases hpf : patchFalsy w.state <;>
      constructor <;>
      simp_all [inReproPhase, inFixPhase] <;> omega
  | fix_decision =>
    have hav := entry_avail (Or.inr (by rw [hn]; exact Or.inr (Or.inr (Or.inr (Or.inr rfl)))))
    have hb := ef_fd (Or.inr hn)
    have hres := fix_res hn
    have hce := cnt_elsewhere (by rw [hn]; simp)
    have hrun : w.state.status = .RUNNING := by
      by_contra hne
      rcases status_node hne with h1 | h1 <;> rw [hn] at h1 <;> exact absurd h1 (by simp)
    rcases hfr : w.state.fix_result with _ | r
    · rw [hfr] at hres; simp at hres
    simp only [step, stepCore, hn, fix_decision_node, hfr, fix_router]
    by_cases hsent : r.stderr = validation_sentinel
    · by_cases hge3 : 3 ≤ w.state.fix_retries
      · constructor <;> simp_all [inReproPhase, inFixPhase, patchFalsy, eq_true hge3] <;> omega
      · constructor <;> simp_all [inReproPhase, inFixPhase, patchFalsy] <;>
          (try (split_ifs <;> try simp_all)) <;> omega
    · by_cases hec : r.exit_code = 0
      · constructor <;> simp_all [inReproPhase, inFixPhase, patchFalsy]
      · by_cases hge4 : 2 ≤ w.state.fix_retries
        · constructor <;> simp_all [inReproPhase, inFixPhase, patchFalsy, eq_true hge4] <;> omega
        · constructor <;> simp_all [inReproPhase, inFixPhase, patchFalsy] <;>
            (try (split_ifs <;> try simp_all)) <;> omega
  | generate_fail_report =>
    have hge := fail_ge hn
    have hce := cnt_elsewhere (by rw [hn]; simp)
    have hrun : w.state.status = .RUNNING := by
      by_contra hne
      rcases status_node hne with h1 | h1 <;> rw [hn] at h1 <;> exact absurd h1 (by simp)
    simp only [step, stepCore, hn, generate_fail_report_node]
    constructor <;> simp_all [inReproPhase, inFixPhase]
  | generate_not_reproducible =>
    have hce := cnt_elsewhere (by rw [hn]; simp)
    have hrun : w.state.status = .RUNNING := by
      by_contra hne
      rcases status_node hne with h1 | h1 <;> rw [hn] at h1 <;> exact absurd h1 (by simp)
    simp only [step, stepCore, hn, generate_not_reproducible_node]
    constructor <;> simp_all [inReproPhase, inFixPhase]
  | generate_final_report =>
    have hns := end_status (Or.inl hn)
    have hce := cnt_elsewhere (by rw [hn]; simp)
    simp only [step, stepCore, hn]
    constructor <;> simp_all [inReproPhase, inFixPhase]
  | END =>
    have hns := end_status (Or.inr hn)
    have hce := cnt_elsewhere (by rw [hn]; simp)
    simp only [step, stepCore, hn]
    constructor <;> simp_all [inReproPhase, inFixPhase]
  | crash => exact absurd hn no_crash

/-- The invariant holds after any number of steps from the initial world. -/
theorem machineInv_runN (env : Env) (repo error_log entry mode : String) (n : Nat) :
    MachineInv env (runN env (initWorld env repo error_log entry mode) n) := by
  induction n with
  | zero => exact machineInv_init env repo error_log entry mode
  | succ m ih => exact machineInv_step env _ ih

/-- Embeds `END` is absorbing. -/
theorem step_END (env : Env) (w : World) (h : w.node = Node.END) :
    step env w = w := by
  cases w
  simp only at h
  subst h
  simp [step, stepCore]

/-! ## Concrete environments and runs used as witnesses -/

/-- A parse oracle agreeing with CPython on the two one-line sources used in
    concrete runs: both parse to a module with a single non-def,
    non-import statement. -/
def parseW : PyParse :=
  fun s => if s = "x = 1" ∨ s = "x = 2" then some ⟨[.other []]⟩ else none

/-- Environment in which the provisioned workspace lacks the entry file. -/
def envMiss : Env :=
  { parse := parseW, stdlib := ∅, workspace := "ws", fs0 := fun _ => none,
    cwd := "cw", sandbox := fun _ => ⟨0, "", ""⟩,
    compile_ok := fun _ => true, llm := fun _ => none }

/-- Its initial world. -/
def w0Miss : World := initWorld envMiss "repo" "errtext" "app.py" "entry"

/-- Environment whose run reproduces the failure on attempt one, then in two
    successive patch rounds the provider output is accepted but both the
    syntax check and the fix verification fail. -/
def envC2 : Env :=
  { parse := parseW, stdlib := ∅, workspace := "ws",
    fs0 := fun p => if p = "ws/app.py" then some "x = 2" else none,
    cwd := "cw",
    sandbox := fun n => if n = 0 then ⟨1, "", "boom"⟩ else ⟨1, "", "err"⟩,
    compile_ok := fun _ => false, llm := fun _ => some "x = 1" }

/-- Its initial world. -/
def w0C2 : World := initWorld envC2 "repo" "errtext" "app.py" "entry"

/-- Environment whose sandbox always exits 0 with empty stderr, so the
    reproduction loop retries and then gives up. -/
def envD : Env :=
  { parse := parseW, stdlib := ∅, workspace := "ws",
    fs0 := fun p => if p = "ws/app.py" then some "x = 2" else none,
    cwd := "cw", sandbox := fun _ => ⟨0, "", ""⟩,
    compile_ok := fun _ => true, llm := fun _ => none }

/-- Its initial world. -/
def w0D : World := initWorld envD "repo" "errtext" "app.py" "entry"

/-- Environment whose sandbox exits 0 but prints an infrastructure-keyword
    stderr, so classification yields `INFRA_ERROR` after the reproduction
    attempt. -/
def envE : Env :=
  { parse := parseW, stdlib := ∅, workspace := "ws",
    fs0 := fun p => if p = "ws/app.py" then some "x = 2" else none,
    cwd := "cw", sandbox := fun _ => ⟨0, "", "Connection refused"⟩,
    compile_ok := fun _ => true, llm := fun _ => none }

/-- Its initial world. -/
def w0E : World := initWorld envE "repo" "errtext" "app.py" "entry"

/-- A non-`RUNNING` status is one of the four terminal values. -/
theorem status_terminal_cases (s : Status) (h : s ≠ .RUNNING) :
    s = .INFRA_STOP ∨ s = .SUCCESS ∨ s = .FAILED ∨ s = .NOT_REPRODUCIBLE := by
  cases s <;> simp_all

/-! ## Claim theorems -/

/-- C1: For every run of the compiled state machine — any environment,
    any inputs, any number of steps — the `status` field is written at most
    once after its initial `RUNNING` default, the machine never reaches the
    crash sink, the final-report node is executed at most once, and on
    every path that has reached `END` it was executed exactly once and the
    terminal status is one of the four non-`RUNNING` values (hence one of
    the five defined statuses `RUNNING`, `INFRA_STOP`, `SUCCESS`, `FAILED`,
    `NOT_REPRODUCIBLE`). -/
theorem C1_status_single_write_final_report_once (env : Env)
    (repo error_log entry mode : String) (n : Nat) :
    (runN env (initWorld env repo error_log entry mode) n).statusWrites ≤ 1 ∧
    (runN env (initWorld env repo error_log entry mode) n).finalCount ≤ 1 ∧
    (runN env (initWorld env repo error_log entry mode) n).node ≠ Node.crash ∧
    ((runN env (initWorld env repo error_log entry mode) n).node = Node.END →
      (runN env (initWorld env repo error_log entry mode) n).finalCount = 1 ∧
      ((runN env (initWorld env repo error_log entry mode) n).state.status = Status.INFRA_STOP ∨
       (runN env (initWorld env repo error_log entry mode) n).state.status = Status.SUCCESS ∨
       (runN env (initWorld env repo error_log entry mode) n).state.status = Status.FAILED ∨
       (runN env (initWorld env repo error_log entry mode) n).state.status =
         Status.NOT_REPRODUCIBLE)) := by
  obtain ⟨status_node, end_status, writes_eq, final_eq, no_crash, _, _, _, _, _,
    _, _, _, _, _, _, _, _, _, _⟩ := machineInv_runN env repo error_log entry mode n
  refine ⟨?_, ?_, no_crash, fun hEnd => ⟨?_, ?_⟩⟩
  · rw [writes_eq]; split <;> omega
  · rw [final_eq]; split <;> omega
  · rw [final_eq, if_pos hEnd]
  · exact status_terminal_cases _ (end_status (Or.inr hEnd))

/-- Witness for C1 at a concrete run (missing entry file) that reaches
    `END` in two steps. -/
theorem C1_witness :
    (runN envMiss w0Miss 2).node = Node.END ∧
    (runN envMiss w0Miss 2).finalCount = 1 ∧
    (runN envMiss w0Miss 2).statusWrites ≤ 1 := by
  have h := C1_status_single_write_final_report_once envMiss "repo" "errtext" "app.py" "entry" 2
  exact ⟨by decide, (h.2.2.2 (by decide)).1, h.1⟩

/-- C2 counterexample: A run in which, with `fix_retries = 2`, one
    patch round fails both the syntax check and the fix verification:
    `fix_retries` reaches 4 while `status` is still `RUNNING`, and only
    afterwards does the machine transition to `FAILED`.  This contradicts
    the claim that the fix-attempt counter never exceeds 3 before the
    `FAILED` transition. -/
theorem C2_counterexample :
    (runN envC2 w0C2 15).state.fix_retries = 4 ∧
    (runN envC2 w0C2 15).state.status = Status.RUNNING ∧
    (runN envC2 w0C2 16).state.status = Status.FAILED := by
  exact ⟨by decide, by decide, by decide⟩

/-- C2 amended: For every run: `reproduce_retries` never exceeds 2,
    and the machine transitions to `NOT_REPRODUCIBLE` exactly when it is 2;
    `fix_retries` never exceeds 4 (not 3: a single round can add two
    increments, one from the syntax check and one from the fix decision),
    each patch round starts with `fix_retries ≤ 2`, and the machine
    transitions to `FAILED` only with `fix_retries ≥ 3`. -/
theorem C2_amended_retry_ceilings (env : Env)
    (repo error_log entry mode : String) (n : Nat) :
    (runN env (initWorld env repo error_log entry mode) n).state.reproduce_retries ≤ 2 ∧
    (runN env (initWorld env repo error_log entry mode) n).state.fix_retries ≤ 4 ∧
    ((runN env (initWorld env repo error_log entry mode) n).node = Node.generate_patch →
      (runN env (initWorld env repo error_log entry mode) n).state.fix_retries ≤ 2) ∧
    ((runN env (initWorld env repo error_log entry mode) n).node =
        Node.generate_not_reproducible →
      (runN env (initWorld env repo error_log entry mode) n).state.reproduce_retries = 2) ∧
    ((runN env (initWorld env repo error_log entry mode) n).node = Node.generate_fail_report →
      3 ≤ (runN env (initWorld env repo error_log entry mode) n).state.fix_retries) := by
  obtain ⟨_, _, _, _, _, repro_le, _, nr_eq, fix_le, _, _, gp_le, _, _, fail_ge,
    _, _, _, _, _⟩ := machineInv_runN env repo error_log entry mode n
  exact ⟨repro_le, fix_le, gp_le, nr_eq, fail_ge⟩

/-- Witness for the amended C2 at concrete runs reaching the
    `NOT_REPRODUCIBLE` and `FAILED` transitions and a patch round. -/
theorem C2_amended_witness :
    (runN envD w0D 9).state.reproduce_retries = 2 ∧
    (runN envC2 w0C2 5).state.fix_retries ≤ 2 ∧
    3 ≤ (runN envC2 w0C2 15).state.fix_retries := by
  refine ⟨(C2_amended_retry_ceilings envD "repo" "errtext" "app.py" "entry" 9).2.2.2.1
      (by decide),
    (C2_amended_retry_ceilings envC2 "repo" "errtext" "app.py" "entry" 5).2.2.1 (by decide),
    (C2_amended_retry_ceilings envC2 "repo" "errtext" "app.py" "entry" 15).2.2.2.2
      (by decide)⟩

/-- C3 counterexample: In a run whose first reproduction attempt exits
    0, classification has happened 0 times when the first reproduction has
    already executed (so it is not performed "at entry"), and after two
    reproduction attempts it has happened twice (so it is repeated after
    every attempt) — contradicting "performed exactly once, at entry, and
    not repeated after reproduction attempts". -/
theorem C3_counterexample :
    (runN envD w0D 3).reproCount = 1 ∧
    (runN envD w0D 3).classifyCount = 0 ∧
    (runN envD w0D 8).classifyCount = 2 := by
  exact ⟨by decide, by decide, by decide⟩

/-- C3 amended: Classification is performed once per reproduction
    attempt, immediately after it (the classification count always equals
    the reproduction-execution count, offset by one exactly while the
    classification node is current), and whenever `error_type` is
    `INFRA_ERROR` at the post-reproduction routing point the machine routes
    to the infra-stop report regardless of the reproduction outcome. -/
theorem C3_amended_classification_per_attempt (env : Env)
    (repo error_log entry mode : String) (n : Nat) :
    ((runN env (initWorld env repo error_log entry mode) n).node = Node.classify_error →
      (runN env (initWorld env repo error_log entry mode) n).classifyCount + 1 =
        (runN env (initWorld env repo error_log entry mode) n).reproCount) ∧
    ((runN env (initWorld env repo error_log entry mode) n).node ≠ Node.classify_error →
      (runN env (initWorld env repo error_log entry mode) n).classifyCount =
        (runN env (initWorld env repo error_log entry mode) n).reproCount) ∧
    ((runN env (initWorld env repo error_log entry mode) n).node =
        Node.reproduction_decision →
      (runN env (initWorld env repo error_log entry mode) n).state.error_type =
        some ErrorType.INFRA_ERROR →
      (step env (runN env (initWorld env repo error_log entry mode) n)).node =
        Node.generate_infra_report) := by
  obtain ⟨_, _, _, _, _, _, _, _, _, _, _, _, _, _, _, repro_res, _, _,
    cnt_at_classify, cnt_elsewhere⟩ := machineInv_runN env repo error_log entry mode n
  refine ⟨cnt_at_classify, cnt_elsewhere, fun hn herr => ?_⟩
  have hres := repro_res (Or.inr hn)
  rcases hrr : (runN env (initWorld env repo error_log entry mode) n).state.reproduction_result
    with _ | r
  · rw [hrr] at hres; simp at hres
  simp only [step, stepCore, hn, reproduction_decision_node, hrr, reproduction_router]
  by_cases hec : r.exit_code = 0 <;> simp [hec, herr]

/-- Witness for the amended C3: the count relation at concrete runs, and a
    concrete post-reproduction INFRA preemption (the reproduction there
    exits 0, showing the outcome is irrelevant). -/
theorem C3_amended_witness :
    (runN envD w0D 3).classifyCount + 1 = (runN envD w0D 3).reproCount ∧
    (runN envD w0D 4).classifyCount = (runN envD w0D 4).reproCount ∧
    (step envE (runN envE w0E 4)).node = Node.generate_infra_report := by
  refine ⟨(C3_amended_classification_per_attempt envD "repo" "errtext" "app.py" "entry" 3).1
      (by decide),
    (C3_amended_classification_per_attempt envD "repo" "errtext" "app.py" "entry" 4).2.1
      (by decide),
    (C3_amended_classification_per_attempt envE "repo" "errtext" "app.py" "entry" 4).2.2
      (by decide) (by decide)⟩

/-- C8: For every run whose provisioned workspace lacks the configured
    entry file: no reproduction step is ever executed, after the first step
    the status is `FAILED` with `error_type = CODE_ERROR`, the machine is at
    the final-report node right after setup, and from step 2 on it is at
    `END` having produced the final report exactly once. -/
theorem C8_missing_entry_file_fatal (env : Env) (repo error_log entry mode : String)
    (n : Nat) (hmiss : env.fs0 (pyJoin env.workspace entry) = none) :
    (runN env (initWorld env repo error_log entry mode) n).reproCount = 0 ∧
    (1 ≤ n →
      (runN env (initWorld env repo error_log entry mode) n).state.status = Status.FAILED ∧
      (runN env (initWorld env repo error_log entry mode) n).state.error_type =
        some ErrorType.CODE_ERROR) ∧
    (n = 1 →
      (runN env (initWorld env repo error_log entry mode) n).node =
        Node.generate_final_report) ∧
    (2 ≤ n →
      (runN env (initWorld env repo error_log entry mode) n).node = Node.END ∧
      (runN env (initWorld env repo error_log entry mode) n).finalCount = 1) := by
  have h1 : runN env (initWorld env repo error_log entry mode) 1 =
      { initWorld env repo error_log entry mode with
        state := { (initWorld env repo error_log entry mode).state with
                   workspace_path := some env.workspace,
                   status := Status.FAILED, error_type := some ErrorType.CODE_ERROR },
        node := Node.generate_final_report, statusWrites := 1 } := by
    show step env (initWorld env repo error_log entry mode) = _
    simp [step, stepCore, initWorld, setup_workspace_node, setup_router, fsExists, hmiss]
  have h2 : runN env (initWorld env repo error_log entry mode) 2 =
      { initWorld env repo error_log entry mode with
        state := { (initWorld env repo error_log entry mode).state with
                   workspace_path := some env.workspace,
                   status := Status.FAILED, error_type := some ErrorType.CODE_ERROR },
        node := Node.END, finalCount := 1, statusWrites := 1 } := by
    show step env (runN env (initWorld env repo error_log entry mode) 1) = _
    rw [h1]
    simp [step, stepCore, initWorld]
  have habs : ∀ m, runN env (initWorld env repo error_log entry mode) (m + 2) =
      runN env (initWorld env repo error_log entry mode) 2 := by
    intro m
    induction m with
    | zero => rfl
    | succ k ih =>
      show step env (runN env (initWorld env repo error_log entry mode) (k + 2)) = _
      rw [ih]
      exact step_END env _ (by rw [h2])
  rcases n with _ | n
  · exact ⟨rfl, by intro h; exact absurd h (by decide),
      by intro h; exact absurd h (by decide), by intro h; exact absurd h (by decide)⟩
  rcases n with _ | m
  · exact ⟨by rw [h1]; try simp [initWorld], fun _ => ⟨by rw [h1], by rw [h1]⟩,
      fun _ => by rw [h1], by intro h; exact absurd h (by decide)⟩
  · have he : runN env (initWorld env repo error_log entry mode) (m + 1 + 1) =
        runN env (initWorld env repo error_log entry mode) 2 := habs m
    exact ⟨by rw [he, h2]; try simp [initWorld],
      fun _ => ⟨by rw [he, h2], by rw [he, h2]⟩,
      by intro h; exact absurd h (by omega),
      fun _ => ⟨by rw [he, h2], by rw [he, h2]⟩⟩

/-- Witness for C8 at the concrete missing-entry environment. -/
theorem C8_witness :
    (runN envMiss w0Miss 2).reproCount = 0 ∧
    (runN envMiss w0Miss 2).state.status = Status.FAILED ∧
    (runN envMiss w0Miss 2).state.error_type = some ErrorType.CODE_ERROR ∧
    (runN envMiss w0Miss 2).node = Node.END := by
  have h := C8_missing_entry_file_fatal envMiss "repo" "errtext" "app.py" "entry" 2 rfl
  exact ⟨h.1, (h.2.1 (by decide)).1, (h.2.1 (by decide)).2, (h.2.2.2 (by decide)).1⟩

/-- C4 counterexample: A raw provider output wrapped in code fences is
    accepted by the patch acceptance path of `try_provider`: the fences are
    stripped (`core/nodes.py` line 308) before `validate_llm_patch` runs,
    so the fence check never sees them.  This contradicts the claim that
    every fence-containing candidate is rejected by the acceptance path. -/
theorem C4_counterexample :
    pyContains "```python\nx = 1\n```" "```" = true ∧
    patch_acceptance parseW ∅ "x = 2" "```python\nx = 1\n```" = true := by
  exact ⟨by decide, by decide⟩

/-- C4 amended: The validator function itself rejects every candidate
    text containing a code-fence marker, regardless of syntactic validity;
    the acceptance path, however, validates only the fence-stripped text. -/
theorem C4_amended_validator_rejects_fences (parse : PyParse) (content : String)
    (h : pyContains content "```" = true) :
    validate_llm_patch parse content = false := by
  unfold validate_llm_patch
  rw [if_pos h]

/-- Witness for the amended C4 at a fenced, otherwise valid candidate. -/
theorem C4_amended_witness :
    validate_llm_patch parseW "```python\nx = 1\n```" = false :=
  C4_amended_validator_rejects_fences parseW "```python\nx = 1\n```" (by decide)

/-- C5: The non-truncation check rejects (i) a candidate smaller than
    90% of a character-large (≥ 2000 chars) original, (ii) a candidate with
    fewer than 90% of the lines of a line-large (≥ 120 lines) original, and
    (iii) a candidate preserving fewer than 90% of the original's top-level
    named declarations (flavor-tagged function / async-function / class),
    regardless of the candidate's validity. -/
theorem C5_truncation_checks (parse : PyParse) (original candidate : String) :
    (2000 ≤ original.length → candidate.length < 9 * original.length / 10 →
      looks_incomplete_patch parse original candidate = true) ∧
    (120 ≤ (pySplitlines original).length →
      (pySplitlines candidate).length < 9 * (pySplitlines original).length / 10 →
      looks_incomplete_patch parse original candidate = true) ∧
    (extract_top_level_symbols parse original ≠ ∅ →
      10 * (extract_top_level_symbols parse original ∩
        extract_top_level_symbols parse candidate).card <
        9 * (extract_top_level_symbols parse original).card →
      looks_incomplete_patch parse original candidate = true) := by
  refine ⟨fun h1 h2 => ?_, fun h1 h2 => ?_, fun h1 h2 => ?_⟩ <;>
    (unfold looks_incomplete_patch; split_ifs <;> simp_all)

/-- A 2000-character original. -/
def bigA : String := String.mk (List.replicate 2000 'a')

/-- A 120-line original. -/
def big120 : String := pyJoinSep "\n" (List.replicate 120 "a")

/-- Parse oracle for the symbol-preservation witness: `"O"` parses to a
    module with twenty top-level functions, `"C"` to one keeping only the
    first (95% of the functions dropped). -/
def parse5 : PyParse := fun s =>
  if s = "O" then
    some ⟨(List.range 20).map (fun i => PyStmt.functionDef ("f" ++ toString i) [])⟩
  else if s = "C" then some ⟨[PyStmt.functionDef "f0" []]⟩
  else none

/-- Witness for C5: all three rejection conditions at concrete inputs,
    including a candidate dropping 95% of the original's functions.  The
    length of the 2000-character original is computed by rewriting (a
    kernel evaluation of a 2000-element list recurses too deeply). -/
theorem C5_witness :
    looks_incomplete_patch parse5 bigA "b" = true ∧
    looks_incomplete_patch parse5 big120 "b" = true ∧
    looks_incomplete_patch parse5 "O" "C" = true := by
  have hA : bigA.length = 2000 := by
    show bigA.data.length = 2000
    rw [show bigA.data = List.replicate 2000 'a' from rfl, List.length_replicate]
  refine ⟨(C5_truncation_checks parse5 bigA "b").1 (by rw [hA]) (by rw [hA]; decide),
    (C5_truncation_checks parse5 big120 "b").2.1 (by decide) (by decide),
    (C5_truncation_checks parse5 "O" "C").2.2 (by decide) (by decide)⟩

/-- Insertion never yields the empty list. -/
theorem insertSorted_ne_nil (x : String) (l : List String) : insertSorted x l ≠ [] := by
  cases l <;> simp [insertSorted] <;> split <;> simp

/-- Embeds `pySorted` preserves emptiness. -/
theorem pySorted_eq_nil (l : List String) : pySorted l = [] ↔ l = [] := by
  induction l with
  | nil => simp [pySorted]
  | cons x xs ih =>
    simp only [pySorted, List.foldr_cons]
    constructor
    · intro h; exact absurd h (insertSorted_ne_nil x _)
    · intro h; exact absurd h (by simp)

/-- C6: The dependency-containment check rejects the candidate exactly
    when some imported top-level module root of the candidate is absent
    from the original's roots and outside the known standard/built-in
    module set.  (The hypothesis that no root is the empty string holds for
    every real `ast.parse` result, where module names are identifiers.) -/
theorem C6_dependency_containment (parse : PyParse) (stdlib : Finset String)
    (original candidate : String)
    (hwf : "" ∉ extract_import_roots parse candidate) :
    ((has_new_third_party_imports parse stdlib original candidate).1 = true ↔
      ∃ m ∈ extract_import_roots parse candidate,
        m ∉ extract_import_roots parse original ∧ m ∉ stdlib) := by
  unfold has_new_third_party_imports
  simp [pySorted_eq_nil, List.filter_eq_nil_iff, List.mem_filter]
  constructor
  · rintro ⟨m, hmem, _, hnostd, hnoorig⟩
    exact ⟨m, hmem, hnoorig, hnostd⟩
  · rintro ⟨m, hmem, hnoorig, hnostd⟩
    exact ⟨m, hmem, fun he => hwf (he ▸ hmem), hnostd, hnoorig⟩

/-- Parse oracle for the C6 witness. -/
def parse6 : PyParse := fun s =>
  if s = "import requests" then some ⟨[.importStmt ["requests"]]⟩
  else if s = "x = 2" then some ⟨[.other []]⟩ else none

/-- Witness for C6: a candidate introducing the non-standard root
    `requests` is flagged. -/
theorem C6_witness :
    (has_new_third_party_imports parse6 {"os", "sys"} "x = 2" "import requests").1 = true := by
  exact (C6_dependency_containment parse6 {"os", "sys"} "x = 2" "import requests"
    (by decide)).mpr ⟨"requests", by decide, by decide, by decide⟩

/-- Filesystem for the C7 computation. -/
def fs7 : FS := fun p => if p = "ws/app.py" then some "a\nb\nc" else none

/-- C7: On original lines `["a","b","c"]` and candidate `["a","x","c"]`
    the diff engine produces exactly one changed region, at 1-based line 2,
    with before `"b"` and after `"x"`; and the report's lines-added /
    lines-removed counts over the unified diff (leading `+`/`-` lines,
    `+++`/`---` headers excluded) are both 1. -/
theorem C7_diff_engine :
    (apply_full_file_patch fs7 "ws" "app.py" "a\nx\nc").2.changed_blocks =
      [⟨2, "b", "x"⟩] ∧
    patch_diff_summary (apply_full_file_patch fs7 "ws" "app.py" "a\nx\nc").2.diff = (1, 1) := by
  exact ⟨by decide, by decide⟩

/-- C9: When `patch_content` is empty (`None` or `""`), the apply-patch
    step performs no filesystem write (the filesystem is returned
    unchanged), sets the patch diff to `""` and the changed-region list to
    `[]`, and leaves every other state field unchanged. -/
theorem C9_empty_patch_no_mutation (cwd : String) (s : OpsGuardState) (fs : FS)
    (h : s.patch_content = none ∨ s.patch_content = some "") :
    apply_patch_node cwd s fs =
      some ({ s with patch_diff := some "", human_readable_changes := some [] }, fs) := by
  unfold apply_patch_node
  exact if_pos h

/-- A concrete state with the default (`None`) patch content. -/
def s9 : OpsGuardState := { repo_path := "r", error_log := "e" }

/-- A concrete empty filesystem. -/
def fs9 : FS := fun _ => none

/-- Witness for C9. -/
theorem C9_witness :
    apply_patch_node "cw" s9 fs9 =
      some ({ s9 with patch_diff := some "", human_readable_changes := some [] }, fs9) :=
  C9_empty_patch_no_mutation "cw" s9 fs9 (Or.inl rfl)

/-- C10: When the target file is absent at the joined workspace path,
    `apply_full_file_patch` performs no write and returns
    `success = False` with an empty diff and empty changed-blocks list. -/
theorem C10_missing_file_no_write (fs : FS) (workspace_path filename new_content : String)
    (h : fs (pyJoin workspace_path filename) = none) :
    apply_full_file_patch fs workspace_path filename new_content =
      (fs, ⟨false, "", []⟩) := by
  simp [apply_full_file_patch, h]

/-- A concrete empty filesystem for the C10 witness. -/
def fs10 : FS := fun _ => none

/-- Witness for C10. -/
theorem C10_witness :
    apply_full_file_patch fs10 "ws" "app.py" "x = 1" = (fs10, ⟨false, "", []⟩) :=
  C10_missing_file_no_write fs10 "ws" "app.py" "x = 1" rfl

end OpsGuard

